import Mathlib

/-!
Verification of the product-catalog behaviour of the `nodejs-lesson-23`
repository: an Express application (`app.js`, here `src/unnamed/part_000`)
that mounts an admin route group and a shop route group
(`src/routes/shop.js`), renders Handlebars templates from in-memory
product data, and answers unmatched paths with a 404 page.

The admin route module (`routes/admin.js`, holding the Catalog Store's
product list and the add-product handlers) is referenced by `app.js` and
`shop.js` but is not part of the provided sources; its operations are
modelled from the specification where noted.
-/

/-- A catalog product. Attributes follow the spec's data model: an
identifier assigned by the store plus the four form-supplied fields.
The price is modelled as a rational number (JS numbers; no validation). -/
structure Product where
  id : Nat
  title : String
  imageUrl : String
  price : Rat
  description : String
deriving DecidableEq, Repr

/-- The Catalog Store: the in-memory product list (`adminData.products`
in the source) together with the counter from which fresh identifiers
are drawn. -/
structure Store where
  products : List Product
  nextId : Nat
deriving DecidableEq, Repr

/-- The store at process start: no products, first identifier 0. -/
def emptyStore : Store := ⟨[], 0⟩

/-- Modelled from the spec: `routes/admin.js` is not under the provided
sources. `addProduct(title, imageUrl, price, description) -> Product`
constructs a Product with a freshly assigned unique identifier and
appends it to the list; no validation is performed and there are no
error conditions. Returns the updated store and the created product. -/
def addProduct (s : Store) (title imageUrl : String) (price : Rat)
    (description : String) : Store × Product :=
  let p : Product := ⟨s.nextId, title, imageUrl, price, description⟩
  (⟨s.products ++ [p], s.nextId + 1⟩, p)

/-- Modelled from the spec: `listProducts()` returns all products in
insertion order, side-effect-free (in the source this is the read of
`adminData.products`). -/
def listProducts (s : Store) : List Product := s.products

/-- The data object a handler passes to the template renderer
(`res.render(template, data)`). Fields not supplied by a handler are
`none`. `path` is the `path` key of `shop.js`'s render data. -/
structure RenderData where
  prods : Option (List Product) := none
  pageTitle : Option String := none
  path : Option String := none
  hasProducts : Option Bool := none
deriving DecidableEq, Repr

/-- The body of an HTTP response: a rendered template with its data
object, or a redirect to a location (no body rendered). -/
inductive ResBody where
  | rendered (template : String) (data : RenderData)
  | redirect (location : String)
deriving DecidableEq, Repr

/-- An HTTP response: status code and body. -/
structure Response where
  status : Nat
  body : ResBody
deriving DecidableEq, Repr

/-- The `pageTitle` supplied to the renderer, when the response renders
a template; `none` for redirects. -/
def Response.renderedPageTitle (r : Response) : Option String :=
  match r.body with
  | .rendered _ d => d.pageTitle
  | .redirect _ => none

/-- The shop listing handler, from `src/routes/shop.js` lines 10-15:
reads `adminData.products`, then renders the `shop` template with
`prods`, `pageTitle: 'Shop'`, `path: '/'`, and the pre-computed boolean
`hasProducts: products.length > 0` (Handlebars cannot evaluate
`array.length` in a conditional). Returns the (unchanged) store and the
response. -/
def showShop (s : Store) : Store × Response :=
  let products := listProducts s
  (s, ⟨200, .rendered "shop"
    { prods := some products
      pageTitle := some "Shop"
      path := some "/"
      hasProducts := some (decide (products.length > 0)) }⟩)

/-- Modelled from the spec: `showAddProductForm()` of the absent
`routes/admin.js` renders a form template with no catalog data
required. -/
def showAddProductForm : Response :=
  ⟨200, .rendered "add-product" {}⟩

/-- The submitted add-product form fields, already parsed by the external
HTTP layer (body-parser) into the four product fields. -/
structure Form where
  title : String
  imageUrl : String
  price : Rat
  description : String
deriving DecidableEq, Repr

/-- Modelled from the spec: `postAddProduct(formFields)` of the absent
`routes/admin.js` extracts title, image URL, price and description from
the form data, calls the Catalog Store's add operation, then issues a
redirect response to the shop root path; no response body is rendered
on success. -/
def postAddProduct (s : Store) (f : Form) : Store × Response :=
  let r := addProduct s f.title f.imageUrl f.price f.description
  (r.1, ⟨302, .redirect "/"⟩)

/-- Modelled from the spec: the admin catalog listing handler
(`GET /admin/products`) renders the catalog (admin view); it only reads
the store. -/
def showAdminProducts (s : Store) : Store × Response :=
  (s, ⟨200, .rendered "products" { prods := some (listProducts s) }⟩)

/-- The 404 catch-all middleware of `app.js` (`src/unnamed/part_000`
lines 25-27): `res.status(404).render('404', {pageTitle: 'Page Not
Found'})`. -/
def notFoundHandler : Response :=
  ⟨404, .rendered "404" { pageTitle := some "Page Not Found" }⟩

/-- HTTP request methods used by the application's routes. -/
inductive Method where
  | GET
  | POST
deriving DecidableEq, Repr

/-- A parsed HTTP request: method, path, and (for form posts) the parsed
form fields. -/
structure Request where
  method : Method
  path : String
  form : Form
deriving DecidableEq, Repr

/-- Whether the request matches a registered route of the application
(`app.js` mounts `adminData.routes` under `/admin` and `shopRoutes` at
the root; static assets are served by the external HTTP layer and are
out of scope). -/
def routeMatches (req : Request) : Bool :=
  match req.method, req.path with
  | .GET, "/" => true
  | .GET, "/admin/add-product" => true
  | .POST, "/admin/add-product" => true
  | .GET, "/admin/products" => true
  | _, _ => false

/-- The application's dispatch, following the middleware order of
`app.js`: admin routes, shop routes, then the 404 catch-all for any
unmatched path. Takes the current store and a request; returns the new
store and the response. -/
def handle (s : Store) (req : Request) : Store × Response :=
  match req.method, req.path with
  | .GET, "/" => showShop s
  | .GET, "/admin/add-product" => (s, showAddProductForm)
  | .POST, "/admin/add-product" => postAddProduct s req.form
  | .GET, "/admin/products" => showAdminProducts s
  | _, _ => (s, notFoundHandler)

/-- The fixed port the server listens on (`app.listen(3000)` in
`app.js`), as a function of the process environment: the environment is
ignored, there is no environment-variable-driven configuration. -/
def serverPort (_env : String → Option String) : Nat := 3000

/-- Runs a sequence of `addProduct` calls (one `Form` of field values
per call) against a store, returning the final store and the list of
products created by the calls, in call order. -/
def runAdds (s : Store) : List Form → Store × List Product
  | [] => (s, [])
  | f :: fs =>
    let r := addProduct s f.title f.imageUrl f.price f.description
    let rest := runAdds r.1 fs
    (rest.1, r.2 :: rest.2)

/-- Store invariant: every product identifier already in the list is
below the fresh-identifier counter. -/
def StoreInv (s : Store) : Prop :=
  ∀ p ∈ s.products, p.id < s.nextId

lemma runAdds_products (fs : List Form) :
    ∀ s : Store, ((runAdds s fs).1).products = s.products ++ (runAdds s fs).2 := by
  induction fs with
  | nil => intro s; simp [runAdds]
  | cons f fs ih =>
    intro s
    simp [runAdds, addProduct, ih]

lemma runAdds_ids (fs : List Form) :
    ∀ s : Store, ((runAdds s fs).2).map Product.id = List.range' s.nextId fs.length := by
  induction fs with
  | nil => intro s; simp [runAdds]
  | cons f fs ih =>
    intro s
    simp [runAdds, addProduct, ih, List.range']

/-- C1: for every sequence of `addProduct` calls starting from the empty
Catalog Store, a subsequent `listProducts()` returns exactly the products
created by those calls, in call order, and the returned identifiers are
pairwise distinct (even when calls pass equal field values). -/
theorem listProducts_after_addProduct_sequence (fs : List Form) :
    listProducts (runAdds emptyStore fs).1 = (runAdds emptyStore fs).2 ∧
    (((runAdds emptyStore fs).2).map Product.id).Nodup := by
  constructor
  · simpa [listProducts, emptyStore] using runAdds_products fs emptyStore
  · rw [runAdds_ids fs emptyStore]
    exact List.nodup_range' _ _

/-- C2: for every store state, the shop handler renders the `shop`
template with exactly the store's product sequence as `prods`, page title
`"Shop"`, path `"/"`, and `hasProducts = (number of products > 0)`. -/
theorem showShop_renders_shop (s : Store) :
    (showShop s).2.status = 200 ∧
    (showShop s).2.body = ResBody.rendered "shop"
      { prods := some (listProducts s)
        pageTitle := some "Shop"
        path := some "/"
        hasProducts := some (decide ((listProducts s).length > 0)) } :=
  ⟨rfl, rfl⟩

/-- C3: on the empty store, `listProducts()` returns the empty sequence
and the `hasProducts` boolean the shop handler passes to the renderer is
`false`. -/
theorem emptyStore_no_products :
    listProducts emptyStore = [] ∧
    (showShop emptyStore).2.body = ResBody.rendered "shop"
      { prods := some []
        pageTitle := some "Shop"
        path := some "/"
        hasProducts := some false } :=
  ⟨rfl, rfl⟩

/-- C4: every request whose method/path matches no registered route gets
HTTP status 404 with the `404` template rendered under page title
`"Page Not Found"` (and the store is untouched). -/
theorem unmatched_route_404 (s : Store) (req : Request)
    (h : routeMatches req = false) :
    handle s req = (s, notFoundHandler) ∧
    (handle s req).2.status = 404 ∧
    (handle s req).2.body = ResBody.rendered "404"
      { pageTitle := some "Page Not Found" } := by
  have key : handle s req = (s, notFoundHandler) := by
    unfold routeMatches at h
    unfold handle
    split at h <;> simp_all
  refine ⟨key, ?_, ?_⟩ <;> rw [key] <;> rfl

/-- Witness for `unmatched_route_404` at the concrete request
`GET /does-not-exist`. -/
theorem unmatched_route_404_witness :
    routeMatches ⟨Method.GET, "/does-not-exist", ⟨"", "", 0, ""⟩⟩ = false ∧
    handle emptyStore ⟨Method.GET, "/does-not-exist", ⟨"", "", 0, ""⟩⟩ =
      (emptyStore, notFoundHandler) :=
  ⟨by decide,
   (unmatched_route_404 emptyStore
     ⟨Method.GET, "/does-not-exist", ⟨"", "", 0, ""⟩⟩ (by decide)).1⟩

/-- C5: `addProduct` always succeeds: it constructs a product with a
freshly assigned identifier not shared with any existing product,
appends it to the list, the list length grows by exactly one, and the
field values — including an empty title or a negative price — are stored
as-is; the freshness invariant is preserved. -/
theorem addProduct_always_appends (s : Store) (t i : String) (pr : Rat)
    (d : String) (h : StoreInv s) :
    (addProduct s t i pr d).1.products =
      s.products ++ [(addProduct s t i pr d).2] ∧
    (addProduct s t i pr d).1.products.length = s.products.length + 1 ∧
    (addProduct s t i pr d).2.title = t ∧
    (addProduct s t i pr d).2.imageUrl = i ∧
    (addProduct s t i pr d).2.price = pr ∧
    (addProduct s t i pr d).2.description = d ∧
    (addProduct s t i pr d).2.id ∉ s.products.map Product.id ∧
    StoreInv (addProduct s t i pr d).1 := by
  refine ⟨rfl, by simp [addProduct], rfl, rfl, rfl, rfl, ?_, ?_⟩
  · intro hmem
    rcases List.mem_map.mp hmem with ⟨p, hp, hid⟩
    have hlt := h p hp
    have hid2 : p.id = s.nextId := hid
    omega
  · intro p hp
    have hp2 : p ∈ s.products ++
        [(⟨s.nextId, t, i, pr, d⟩ : Product)] := hp
    rcases List.mem_append.mp hp2 with hmem | hmem
    · exact Nat.lt_succ_of_lt (h p hmem)
    · have hpe : p = (⟨s.nextId, t, i, pr, d⟩ : Product) :=
        List.mem_singleton.mp hmem
      subst hpe
      exact Nat.lt_succ_self _

/-- Witness for `addProduct_always_appends`: adding a product with an
empty title and a negative price to the empty store succeeds and yields
a one-element list. -/
theorem addProduct_always_appends_witness :
    (addProduct emptyStore "" "/img.png" (-5) "desc").1.products.length =
      emptyStore.products.length + 1 :=
  (addProduct_always_appends emptyStore "" "/img.png" (-5) "desc"
    (by intro p hp; simp [emptyStore] at hp)).2.1

/-- C6: `listProducts` only reads the store (it is a pure function of
the store), and handling a `GET /` request leaves the Catalog Store
unchanged: the store after the shop handler equals the store before. -/
theorem showShop_leaves_store_unchanged (s : Store) (f : Form) :
    listProducts s = s.products ∧
    (showShop s).1 = s ∧
    (handle s ⟨Method.GET, "/", f⟩).1 = s :=
  ⟨rfl, rfl, rfl⟩

/-- C7: on a form submission, `postAddProduct` feeds the four form
fields to the store's add operation and responds with a redirect to the
shop root path; no template is rendered. -/
theorem postAddProduct_redirects (s : Store) (f : Form) :
    (postAddProduct s f).1 =
      (addProduct s f.title f.imageUrl f.price f.description).1 ∧
    (postAddProduct s f).2.status = 302 ∧
    (postAddProduct s f).2.body = ResBody.redirect "/" ∧
    ∀ tmpl dat, (postAddProduct s f).2.body ≠ ResBody.rendered tmpl dat :=
  ⟨rfl, rfl, rfl, fun _ _ => by simp [postAddProduct]⟩

/-- C8: read-after-write consistency: after a successful add-product
form submission, an immediately following `GET /` renders the current
shared product list, which contains the newly added product. -/
theorem read_after_write_consistency (s : Store) (f g : Form) :
    (handle (handle s ⟨Method.POST, "/admin/add-product", f⟩).1
        ⟨Method.GET, "/", g⟩).2.body =
      ResBody.rendered "shop"
        { prods := some
            (listProducts (handle s ⟨Method.POST, "/admin/add-product", f⟩).1)
          pageTitle := some "Shop"
          path := some "/"
          hasProducts := some true } ∧
    (addProduct s f.title f.imageUrl f.price f.description).2 ∈
      listProducts (handle s ⟨Method.POST, "/admin/add-product", f⟩).1 := by
  constructor
  · simp [handle, postAddProduct, addProduct, showShop, listProducts]
  · simp [handle, postAddProduct, addProduct, listProducts]

/-- C9: the server listens on the fixed port 3000, and the port does not
depend on the process environment. -/
theorem serverPort_is_3000 :
    ∀ env env' : String → Option String,
      serverPort env = 3000 ∧ serverPort env = serverPort env' :=
  fun _ _ => ⟨rfl, rfl⟩

/-- C10: both template-rendering sites of the provided sources supply a
page title to the renderer: the shop handler passes `"Shop"` and the 404
catch-all passes `"Page Not Found"`, so neither page is rendered without
a page title. -/
theorem rendered_pages_supply_pageTitle (s : Store) :
    (showShop s).2.renderedPageTitle = some "Shop" ∧
    notFoundHandler.renderedPageTitle = some "Page Not Found" :=
  ⟨rfl, rfl⟩

/-- C10 counterexample: not every template-rendered response supplies a
page title. The response to `GET /admin/add-product` renders the
`add-product` form template, and the data object it passes to the
renderer carries no `pageTitle` (the spec describes this handler as
rendering a form template with no catalog data, naming no page title);
likewise `GET /admin/products`. -/
theorem admin_form_rendered_without_pageTitle :
    (handle emptyStore ⟨Method.GET, "/admin/add-product", ⟨"", "", 0, ""⟩⟩).2.body
      = ResBody.rendered "add-product" {} ∧
    (handle emptyStore
      ⟨Method.GET, "/admin/add-product", ⟨"", "", 0, ""⟩⟩).2.renderedPageTitle
      = none ∧
    (handle emptyStore
      ⟨Method.GET, "/admin/products", ⟨"", "", 0, ""⟩⟩).2.renderedPageTitle
      = none :=
  ⟨rfl, rfl, rfl⟩
